import Mathlib

/-!
Provisioning configuration of the cluster-baremetal-operator.

A shallow embedding of `provisioning/baremetal_config.go`: the resolution of the
provisioning network mode, the mode-specific validation of required fields, and
the derivation of the metal3 deployment parameters.

Go strings are Lean `String`s, a Go `error` is `Except String Unit` (`nil` is
`.ok ()`, `fmt.Errorf` is `.error` with the formatted message) and a Go `*string`
is `Option String` (`nil` is `none`).
-/

namespace Baremetal

deriving instance DecidableEq for Except

/-! ## Data model -/

/-- Modelled from the spec: the type declaration `ProvisioningNetwork` (a Go string
type in the api package, absent from the sources at hand); the field `networkMode`
holds `Managed`, `Unmanaged`, `Disabled` or the empty string, and, being a string,
any other text as well. -/
abbrev ProvisioningNetwork := String

/-- Modelled from the spec: the constant for the `Managed` mode, written "Managed"
in the test suite. -/
def ProvisioningNetworkManaged : ProvisioningNetwork := "Managed"

/-- Modelled from the spec: the constant for the `Unmanaged` mode, written
"Unmanaged" in the test suite. -/
def ProvisioningNetworkUnmanaged : ProvisioningNetwork := "Unmanaged"

/-- Modelled from the spec: the constant for the `Disabled` mode, written
"Disabled" in the test suite. -/
def ProvisioningNetworkDisabled : ProvisioningNetwork := "Disabled"

/-- Modelled from the spec: the struct `ProvisioningSpec` (its declaration is absent
from the sources at hand); the fields are the ones `baremetal_config.go` reads and
the test suite populates. -/
structure ProvisioningSpec where
  ProvisioningInterface : String
  ProvisioningIP : String
  ProvisioningNetworkCIDR : String
  ProvisioningDHCPExternal : Bool
  ProvisioningDHCPRange : String
  ProvisioningOSDownloadURL : String
  ProvisioningNetwork : ProvisioningNetwork
  deriving DecidableEq, Repr

/-- Modelled from the spec: the resource `Provisioning`, of which the code reads the
object name (`r.Name`) and the spec (`prov.Spec`). -/
structure Provisioning where
  Name : String
  Spec : ProvisioningSpec
  deriving DecidableEq, Repr

/-! ## Mode resolution and validation -/

/-- The function `getProvisioningNetworkMode`: the explicit mode when one is set,
otherwise `Managed`, or `Unmanaged` when the deprecated `ProvisioningDHCPExternal`
flag is set. -/
def getProvisioningNetworkMode (prov : Provisioning) : ProvisioningNetwork :=
  if prov.Spec.ProvisioningNetwork = "" then
    if prov.Spec.ProvisioningDHCPExternal then
      ProvisioningNetworkUnmanaged
    else
      ProvisioningNetworkManaged
  else
    prov.Spec.ProvisioningNetwork

/-- The anonymous struct `{Name, Value}` the validators range over. -/
structure toTest where
  Name : String
  Value : String
  deriving DecidableEq, Repr

/-- The loop `for _, toTest := range ...` shared by the three validators: it returns
`fmt.Errorf("%s is required but is empty", toTest.Name)` at the first entry whose
value is empty, and `nil` when the slice is exhausted. -/
def rangeToTest : List toTest → Except String Unit
  | [] => .ok ()
  | t :: rest =>
    if t.Value = "" then
      .error (t.Name ++ " is required but is empty")
    else
      rangeToTest rest

/-- The function `validateManagedConfig`. -/
def validateManagedConfig (prov : Provisioning) : Except String Unit :=
  rangeToTest [
    { Name := "ProvisioningInterface", Value := prov.Spec.ProvisioningInterface },
    { Name := "ProvisioningIP", Value := prov.Spec.ProvisioningIP },
    { Name := "ProvisioningNetworkCIDR", Value := prov.Spec.ProvisioningNetworkCIDR },
    { Name := "ProvisioningDHCPRange", Value := prov.Spec.ProvisioningDHCPRange },
    { Name := "ProvisioningOSDownloadURL", Value := prov.Spec.ProvisioningOSDownloadURL }]

/-- The function `validateUnmanagedConfig`. -/
def validateUnmanagedConfig (prov : Provisioning) : Except String Unit :=
  rangeToTest [
    { Name := "ProvisioningInterface", Value := prov.Spec.ProvisioningInterface },
    { Name := "ProvisioningIP", Value := prov.Spec.ProvisioningIP },
    { Name := "ProvisioningNetworkCIDR", Value := prov.Spec.ProvisioningNetworkCIDR },
    { Name := "ProvisioningOSDownloadURL", Value := prov.Spec.ProvisioningOSDownloadURL }]

/-- The function `validateDisabledConfig`. -/
def validateDisabledConfig (prov : Provisioning) : Except String Unit :=
  rangeToTest [
    { Name := "ProvisioningNetworkCIDR", Value := prov.Spec.ProvisioningNetworkCIDR },
    { Name := "ProvisioningOSDownloadURL", Value := prov.Spec.ProvisioningOSDownloadURL }]

/-- The function `ValidateBaremetalProvisioningConfig`: the switch on the resolved
mode; a mode that matches no case falls through to `return nil`. -/
def ValidateBaremetalProvisioningConfig (prov : Provisioning) : Except String Unit :=
  let provisioningNetworkMode := getProvisioningNetworkMode prov
  if provisioningNetworkMode = ProvisioningNetworkManaged then
    validateManagedConfig prov
  else if provisioningNetworkMode = ProvisioningNetworkUnmanaged then
    validateUnmanagedConfig prov
  else if provisioningNetworkMode = ProvisioningNetworkDisabled then
    validateDisabledConfig prov
  else
    .ok ()

/-! ## The functions of Go's `net` package the code calls

`net.ParseCIDR`, `IPMask.Size`, `IP.To4` and `net.JoinHostPort` belong to Go's
standard library. The derivation functions below take the CIDR parser as an
argument, so what is proved of them holds for every parser; `net.ParseCIDR` is a
model of the library's parser, after the implementation over byte slices of Go 1.15
(`net/ip.go`, `net/parse.go`), at which the statements are instantiated. Bytes are
natural numbers below 256, a `nil` slice is the empty list. -/

namespace net

/-- Go's `net.IP`, a slice of bytes. -/
abbrev IP := List Nat

/-- Go's `net.IPMask`, a slice of bytes. -/
abbrev IPMask := List Nat

/-- Go's `net.IPNet`. -/
structure IPNet where
  IP : IP
  Mask : IPMask
  deriving DecidableEq, Repr

/-- Go's `net.IPv4len`. -/
def IPv4len : Nat := 4

/-- Go's `net.IPv6len`. -/
def IPv6len : Nat := 16

/-- Go's `big` of `net/parse.go`, the bound at which number parsing gives up. -/
def big : Nat := 0xFFFFFF

/-- The twelve bytes that start an IPv4 address in its 16-byte form. -/
def v4InV6Lead : List Nat := [0, 0, 0, 0, 0, 0, 0, 0, 0, 0, 0xff, 0xff]

/-- Go's `net.IPv4`: the 16-byte form of the address a.b.c.d. -/
def IPv4 (p : List Nat) : IP := v4InV6Lead ++ p

/-- Go's `isZeros`. -/
def isZeros (p : List Nat) : Bool := p.all (fun b => b == 0)

/-- Go's `allFF`. -/
def allFF (b : List Nat) : Bool := b.all (fun c => c == 0xff)

/-- Go's `IP.To4`: the 4-byte form of an IPv4 address (one of length 4, or one of
length 16 that starts with the IPv4-in-IPv6 bytes), and `nil` (`none`) for every
other address. -/
def IP.To4 (ip : IP) : Option IP :=
  if ip.length = IPv4len then
    some ip
  else if ip.length = IPv6len ∧ isZeros (ip.take 10) ∧ ip.get? 10 = some 0xff ∧
      ip.get? 11 = some 0xff then
    some ((ip.drop 12).take 4)
  else
    none

/-- The inner loop of Go's `simpleMaskLength`, `for v&0x80 != 0 { n++; v <<= 1 }`, on
the byte `v`; a byte leaves it after at most eight rounds. -/
def countOnes : Nat → Nat → Nat → Nat × Nat
  | 0, n, v => (n, v)
  | fuel + 1, n, v =>
    if v &&& 0x80 ≠ 0 then countOnes fuel (n + 1) ((v <<< 1) % 256) else (n, v)

/-- Go's `simpleMaskLength`, started with `n` ones counted: the number of leading
ones of a mask made of ones followed by zeros, and -1 for every other mask. -/
def simpleMaskLengthFrom (n : Nat) : IPMask → Int
  | [] => n
  | v :: rest =>
    if v = 0xff then
      simpleMaskLengthFrom (n + 8) rest
    else
      let r := countOnes 8 n v
      if r.2 ≠ 0 then -1
      else if rest.all (fun b => b == 0) then (r.1 : Int)
      else -1

/-- Go's `simpleMaskLength`. -/
def simpleMaskLength (mask : IPMask) : Int := simpleMaskLengthFrom 0 mask

/-- Go's `IPMask.Size`: the number of leading ones and the number of bits of the
mask, and `0, 0` when the mask is not ones followed by zeros. -/
def IPMask.Size (m : IPMask) : Int × Int :=
  let ones := simpleMaskLength m
  let bits : Int := m.length * 8
  if ones = -1 then (0, 0) else (ones, bits)

/-- The loop of Go's `CIDRMask` over the `l` bytes still to fill, `n` ones left. -/
def CIDRMaskLoop : Nat → Nat → IPMask
  | 0, _ => []
  | l + 1, n =>
    if n ≥ 8 then 0xff :: CIDRMaskLoop l (n - 8)
    else ((0xff >>> n) ^^^ 0xff) :: CIDRMaskLoop l 0

/-- Go's `net.CIDRMask`. -/
def CIDRMask (ones bits : Nat) : IPMask :=
  if bits ≠ 8 * IPv4len ∧ bits ≠ 8 * IPv6len then []
  else if ones > bits then []
  else CIDRMaskLoop (bits / 8) ones

/-- Go's `IP.Mask`. -/
def IP.Mask (ip : IP) (mask : IPMask) : IP :=
  let mask := if mask.length = IPv6len ∧ ip.length = IPv4len ∧ allFF (mask.take 12)
    then mask.drop 12 else mask
  let ip := if mask.length = IPv4len ∧ ip.length = IPv6len ∧ ip.take 12 = v4InV6Lead
    then ip.drop 12 else ip
  if ip.length ≠ mask.length then []
  else List.zipWith (fun a b => a &&& b) ip mask

/-- The loop of Go's `dtoi`; the result is the number, the characters consumed and
the success flag. -/
def dtoiLoop : List Char → Nat → Nat → Nat × Nat × Bool
  | [], n, i => if i = 0 then (0, 0, false) else (n, i, true)
  | c :: cs, n, i =>
    if '0' ≤ c ∧ c ≤ '9' then
      let m := n * 10 + (c.toNat - '0'.toNat)
      if m ≥ big then (big, i, false) else dtoiLoop cs m (i + 1)
    else if i = 0 then (0, 0, false)
    else (n, i, true)

/-- Go's `dtoi`, decimal to integer. -/
def dtoi (s : List Char) : Nat × Nat × Bool := dtoiLoop s 0 0

/-- The loop of Go's `xtoi`. -/
def xtoiLoop : List Char → Nat → Nat → Nat × Nat × Bool
  | [], n, i => if i = 0 then (0, i, false) else (n, i, true)
  | c :: cs, n, i =>
    if '0' ≤ c ∧ c ≤ '9' then
      let m := n * 16 + (c.toNat - '0'.toNat)
      if m ≥ big then (0, i, false) else xtoiLoop cs m (i + 1)
    else if 'a' ≤ c ∧ c ≤ 'f' then
      let m := n * 16 + (c.toNat - 'a'.toNat) + 10
      if m ≥ big then (0, i, false) else xtoiLoop cs m (i + 1)
    else if 'A' ≤ c ∧ c ≤ 'F' then
      let m := n * 16 + (c.toNat - 'A'.toNat) + 10
      if m ≥ big then (0, i, false) else xtoiLoop cs m (i + 1)
    else if i = 0 then (0, i, false)
    else (n, i, true)

/-- Go's `xtoi`, hexadecimal to integer. -/
def xtoi (s : List Char) : Nat × Nat × Bool := xtoiLoop s 0 0

/-- The loop of Go's `parseIPv4` from octet `i` on, `p` the octets read so far. -/
def parseIPv4Loop : Nat → Nat → List Char → List Nat → Option IP
  | 0, _, s, p => if s.length ≠ 0 then none else some (IPv4 p)
  | fuel + 1, i, s, p =>
    if s.length = 0 then none
    else if i > 0 ∧ s.head? ≠ some '.' then none
    else
      let s := if i > 0 then s.drop 1 else s
      let r := dtoi s
      if !r.2.2 ∨ r.1 > 0xFF then none
      else parseIPv4Loop fuel (i + 1) (s.drop r.2.1) (p ++ [r.1])

/-- Go's `parseIPv4`: a dotted quad d.d.d.d, in 16-byte form. -/
def parseIPv4 (s : List Char) : Option IP := parseIPv4Loop IPv4len 0 s []

/-- The loop `for i < IPv6len` of Go's `parseIPv6`: `ip` holds the `i` bytes written
so far and `ellipsis` the position of the `::`, or -1. The result is the state the
loop is left in, or `none` where the loop returns `nil`. -/
def parseIPv6Loop : Nat → List Char → Nat → Int → List Nat →
    Option (List Char × Nat × Int × List Nat)
  | 0, s, i, ellipsis, ip => some (s, i, ellipsis, ip)
  | fuel + 1, s, i, ellipsis, ip =>
    if ¬ i < IPv6len then some (s, i, ellipsis, ip)
    else
      let r := xtoi s
      if !r.2.2 ∨ r.1 > 0xFFFF then none
      else if r.2.1 < s.length ∧ s.get? r.2.1 = some '.' then
        if ellipsis < 0 ∧ i ≠ IPv6len - IPv4len then none
        else if i + IPv4len > IPv6len then none
        else
          match parseIPv4 s with
          | none => none
          | some ip4 => some ([], i + IPv4len, ellipsis, ip ++ ip4.drop 12)
      else
        let ip := ip ++ [(r.1 >>> 8) % 256, r.1 % 256]
        let i := i + 2
        let s := s.drop r.2.1
        if s.length = 0 then some (s, i, ellipsis, ip)
        else if s.head? ≠ some ':' ∨ s.length = 1 then none
        else
          let s := s.drop 1
          if s.head? = some ':' then
            if ellipsis ≥ 0 then none
            else
              let s := s.drop 1
              if s.length = 0 then some (s, i, (i : Int), ip)
              else parseIPv6Loop fuel s i (i : Int) ip
          else parseIPv6Loop fuel s i ellipsis ip

/-- The end of Go's `parseIPv6`: the whole string must be used, and an address
shorter than 16 bytes is filled with zeros at the ellipsis. -/
def parseIPv6Finish (st : List Char × Nat × Int × List Nat) : Option IP :=
  let s := st.1
  let i := st.2.1
  let ellipsis := st.2.2.1
  let ip := st.2.2.2
  if s.length ≠ 0 then none
  else if i < IPv6len then
    if ellipsis < 0 then none
    else
      some (ip.take ellipsis.toNat ++ List.replicate (IPv6len - i) 0 ++ ip.drop ellipsis.toNat)
  else if ellipsis ≥ 0 then none
  else some ip

/-- Go's `parseIPv6`: a literal IPv6 address, with at most one `::` and possibly an
IPv4 address at its end. -/
def parseIPv6 (s : List Char) : Option IP :=
  if s.length ≥ 2 ∧ s.get? 0 = some ':' ∧ s.get? 1 = some ':' then
    let s := s.drop 2
    if s.length = 0 then some (List.replicate IPv6len 0)
    else (parseIPv6Loop 9 s 0 0 []).bind parseIPv6Finish
  else (parseIPv6Loop 9 s 0 (-1) []).bind parseIPv6Finish

/-- Go's `net.ParseCIDR`, of which the code uses the network (the second result):
the text before the first `/` is an IPv4 or IPv6 address, the text after it a
decimal mask length of at most 32 or 128 bits; `none` is the parse error. -/
def ParseCIDR (s : String) : Option IPNet :=
  let cs := s.toList
  let i := cs.indexOf '/'
  if i ≥ cs.length then none
  else
    let addr := cs.take i
    let mask := cs.drop (i + 1)
    let v4 := parseIPv4 addr
    let iplen := if v4 = none then IPv6len else IPv4len
    let ip := if v4 = none then parseIPv6 addr else v4
    let r := dtoi mask
    match ip with
    | none => none
    | some ip =>
      if !r.2.2 ∨ r.2.1 ≠ mask.length ∨ r.1 > 8 * iplen then none
      else
        let m := CIDRMask r.1 (8 * iplen)
        some { IP := ip.Mask m, Mask := m }

/-- Go's `net.JoinHostPort`: a host that contains a colon is taken for a literal
IPv6 address and put in square brackets. -/
def JoinHostPort (host port : String) : String :=
  if ':' ∈ host.toList then
    "[" ++ host ++ "]:" ++ port
  else
    host ++ ":" ++ port

end net

/-! ## Derivation of the deployment parameters -/

/-- The variable `baremetalHttpPort`. -/
def baremetalHttpPort : String := "6180"

/-- The variable `baremetalIronicPort`. -/
def baremetalIronicPort : String := "6385"

/-- The variable `baremetalIronicInspectorPort`. -/
def baremetalIronicInspectorPort : String := "5050"

/-- The variable `baremetalKernelUrlSubPath`. -/
def baremetalKernelUrlSubPath : String := "images/ironic-python-agent.kernel"

/-- The variable `baremetalRamdiskUrlSubPath`. -/
def baremetalRamdiskUrlSubPath : String := "images/ironic-python-agent.initramfs"

/-- The variable `baremetalIronicEndpointSubpath`. -/
def baremetalIronicEndpointSubpath : String := "v1/"

/-- The variable `provisioningIP`. -/
def provisioningIP : String := "PROVISIONING_IP"

/-- The variable `provisioningInterface`. -/
def provisioningInterface : String := "PROVISIONING_INTERFACE"

/-- The variable `deployKernelUrl`. -/
def deployKernelUrl : String := "DEPLOY_KERNEL_URL"

/-- The variable `deployRamdiskUrl`. -/
def deployRamdiskUrl : String := "DEPLOY_RAMDISK_URL"

/-- The variable `ironicEndpoint`. -/
def ironicEndpoint : String := "IRONIC_ENDPOINT"

/-- The variable `ironicInspectorEndpoint`. -/
def ironicInspectorEndpoint : String := "IRONIC_INSPECTOR_ENDPOINT"

/-- The variable `httpPort`. -/
def httpPort : String := "HTTP_PORT"

/-- The variable `dhcpRange`. -/
def dhcpRange : String := "DHCP_RANGE"

/-- The variable `machineImageUrl`. -/
def machineImageUrl : String := "RHCOS_IMAGE_URL"

/-- The function `getProvisioningIPCIDR`, with the library's `net.ParseCIDR` as the
argument `parseCIDR`: `fmt.Sprintf("%s/%d", ip, cidr)` with `cidr` the number of ones
of the parsed network's mask. -/
def getProvisioningIPCIDR (parseCIDR : String → Option net.IPNet)
    (config : ProvisioningSpec) : Option String :=
  if config.ProvisioningNetworkCIDR ≠ "" ∧ config.ProvisioningIP ≠ "" then
    match parseCIDR config.ProvisioningNetworkCIDR with
    | some net =>
      let cidr := (net.Mask.Size).1
      some (config.ProvisioningIP ++ "/" ++ toString cidr)
    | none => none
  else
    none

/-- The function `joinHostIPPort`, with the library's `net.ParseCIDR` as the argument
`parseCIDR`. -/
def joinHostIPPort (parseCIDR : String → Option net.IPNet)
    (config : ProvisioningSpec) (port : String) : String :=
  match parseCIDR config.ProvisioningNetworkCIDR with
  | some net =>
    if net.IP.To4 = none then
      "[$(PROVISIONING_IP)]:" ++ port
    else
      "$(PROVISIONING_IP):" ++ port
  | none => "$(PROVISIONING_IP):" ++ port

/-- The function `getDeployKernelUrl`. -/
def getDeployKernelUrl (parseCIDR : String → Option net.IPNet)
    (config : ProvisioningSpec) : Option String :=
  if config.ProvisioningIP ≠ "" then
    some ("http://" ++ net.JoinHostPort config.ProvisioningIP baremetalHttpPort ++ "/" ++
      baremetalKernelUrlSubPath)
  else
    some ("http://" ++ joinHostIPPort parseCIDR config baremetalHttpPort ++ "/" ++
      baremetalKernelUrlSubPath)

/-- The function `getDeployRamdiskUrl`. -/
def getDeployRamdiskUrl (parseCIDR : String → Option net.IPNet)
    (config : ProvisioningSpec) : Option String :=
  if config.ProvisioningIP ≠ "" then
    some ("http://" ++ net.JoinHostPort config.ProvisioningIP baremetalHttpPort ++ "/" ++
      baremetalRamdiskUrlSubPath)
  else
    some ("http://" ++ joinHostIPPort parseCIDR config baremetalHttpPort ++ "/" ++
      baremetalRamdiskUrlSubPath)

/-- The function `getIronicEndpoint`. -/
def getIronicEndpoint : Option String :=
  some ("http://localhost:" ++ baremetalIronicPort ++ "/" ++ baremetalIronicEndpointSubpath)

/-- The function `getIronicInspectorEndpoint`. -/
def getIronicInspectorEndpoint : Option String :=
  some ("http://localhost:" ++ baremetalIronicInspectorPort ++ "/" ++
    baremetalIronicEndpointSubpath)

/-- The function `getProvisioningOSDownloadURL`. -/
def getProvisioningOSDownloadURL (config : ProvisioningSpec) : Option String :=
  if config.ProvisioningOSDownloadURL ≠ "" then
    some config.ProvisioningOSDownloadURL
  else
    none

/-- The function `getMetal3DeploymentConfig`: the switch on the parameter name, `nil`
for a name that matches no case. -/
def getMetal3DeploymentConfig (parseCIDR : String → Option net.IPNet) (name : String)
    (baremetalConfig : ProvisioningSpec) : Option String :=
  if name = provisioningIP then
    getProvisioningIPCIDR parseCIDR baremetalConfig
  else if name = provisioningInterface then
    some baremetalConfig.ProvisioningInterface
  else if name = deployKernelUrl then
    getDeployKernelUrl parseCIDR baremetalConfig
  else if name = deployRamdiskUrl then
    getDeployRamdiskUrl parseCIDR baremetalConfig
  else if name = ironicEndpoint then
    getIronicEndpoint
  else if name = ironicInspectorEndpoint then
    getIronicInspectorEndpoint
  else if name = httpPort then
    some baremetalHttpPort
  else if name = dhcpRange then
    some baremetalConfig.ProvisioningDHCPRange
  else if name = machineImageUrl then
    getProvisioningOSDownloadURL baremetalConfig
  else
    none

/-! ## Sample configurations -/

/-- The `managedSpec` of the test suite. -/
def managedSpec : ProvisioningSpec :=
  { ProvisioningInterface := "eth0"
    ProvisioningIP := "172.30.20.3"
    ProvisioningNetworkCIDR := "172.30.20.0/24"
    ProvisioningDHCPExternal := false
    ProvisioningDHCPRange := "172.30.20.11, 172.30.20.101"
    ProvisioningOSDownloadURL := "http://172.22.0.1/images/rhcos-44.81.202001171431.0-openstack.x86_64.qcow2.gz?sha256=e98f83a2b9d4043719664a2be75fe8134dc6ca1fdbde807996622f8cc7ecd234"
    ProvisioningNetwork := "Managed" }

/-- The `unmanagedSpec` of the test suite. -/
def unmanagedSpec : ProvisioningSpec :=
  { ProvisioningInterface := "ensp0"
    ProvisioningIP := "172.30.20.3"
    ProvisioningNetworkCIDR := "172.30.20.0/24"
    ProvisioningDHCPExternal := false
    ProvisioningDHCPRange := ""
    ProvisioningOSDownloadURL := "http://172.22.0.1/images/rhcos-44.81.202001171431.0-openstack.x86_64.qcow2.gz?sha256=e98f83a2b9d4043719664a2be75fe8134dc6ca1fdbde807996622f8cc7ecd234"
    ProvisioningNetwork := "Unmanaged" }

/-- The `disabledSpec` of the test suite. -/
def disabledSpec : ProvisioningSpec :=
  { ProvisioningInterface := ""
    ProvisioningIP := "172.30.20.3"
    ProvisioningNetworkCIDR := "172.30.20.0/24"
    ProvisioningDHCPExternal := false
    ProvisioningDHCPRange := ""
    ProvisioningOSDownloadURL := "http://172.22.0.1/images/rhcos-44.81.202001171431.0-openstack.x86_64.qcow2.gz?sha256=e98f83a2b9d4043719664a2be75fe8134dc6ca1fdbde807996622f8cc7ecd234"
    ProvisioningNetwork := "Disabled" }

/-- A configuration of an IPv6 provisioning network with an address of its own. -/
def ipv6Spec : ProvisioningSpec :=
  { ProvisioningInterface := "eth0"
    ProvisioningIP := "fd00:1101::3"
    ProvisioningNetworkCIDR := "fd00:1101::/64"
    ProvisioningDHCPExternal := false
    ProvisioningDHCPRange := "fd00:1101::a, fd00:1101::ff"
    ProvisioningOSDownloadURL := "http://[fd00:1101::1]/images/rhcos.qcow2.gz?sha256=0"
    ProvisioningNetwork := "Managed" }

/-- A configuration of an IPv6 network that leaves the address to be supplied at
deployment time. -/
def ipv6HostSpec : ProvisioningSpec :=
  { ipv6Spec with ProvisioningIP := "", ProvisioningNetwork := "Disabled" }

/-- A configuration that sets neither an address nor a CIDR. -/
def bareSpec : ProvisioningSpec :=
  { disabledSpec with ProvisioningIP := "", ProvisioningNetworkCIDR := "" }

/-- A configuration whose ProvisioningNetworkCIDR is no CIDR at all. -/
def badCIDRSpec : ProvisioningSpec :=
  { managedSpec with ProvisioningNetworkCIDR := "172.30.20.0/240" }

/-- The `managedSpec` of the test suite as the singleton resource. -/
def managedProv : Provisioning :=
  { Name := "provisioning-configuration", Spec := managedSpec }

/-- The `unmanagedSpec` of the test suite as the singleton resource. -/
def unmanagedProv : Provisioning :=
  { Name := "provisioning-configuration", Spec := unmanagedSpec }

/-- The `disabledSpec` of the test suite as the singleton resource. -/
def disabledProv : Provisioning :=
  { Name := "provisioning-configuration", Spec := disabledSpec }

/-- A resource that sets no mode and relies on the deprecated flag. -/
def legacyProv (dhcpExternal : Bool) : Provisioning :=
  { Name := "provisioning-configuration"
    Spec := { managedSpec with ProvisioningNetwork := "", ProvisioningDHCPExternal := dhcpExternal } }

/-- A resource whose networkMode is a text outside the three modes, every other field
empty. -/
def bogusProv : Provisioning :=
  { Name := "provisioning-configuration"
    Spec := { ProvisioningInterface := ""
              ProvisioningIP := ""
              ProvisioningNetworkCIDR := ""
              ProvisioningDHCPExternal := false
              ProvisioningDHCPRange := ""
              ProvisioningOSDownloadURL := ""
              ProvisioningNetwork := "Bogus" } }

/-- A Managed resource whose ProvisioningIP and ProvisioningDHCPRange are both empty. -/
def managedNoIPProv : Provisioning :=
  { Name := "provisioning-configuration"
    Spec := { managedSpec with ProvisioningIP := "", ProvisioningDHCPRange := "" } }

/-- A Managed resource whose ProvisioningNetworkCIDR is no CIDR at all. -/
def badCIDRProv : Provisioning :=
  { Name := "provisioning-configuration", Spec := badCIDRSpec }

/-! ## Container manifest -/

/-- Modelled from the spec: a service container of the manifest. The spec fixes how
many containers a mode instantiates and in which role, not their names or images: a
container is one of the seven services every mode runs, or the sidecar that depends
on managed network control. -/
inductive Container where
  | service (k : Fin 7)
  | networkSidecar
  deriving DecidableEq, Repr

/-- Modelled from the spec: the container-manifest derivation `newMetal3Containers`,
whose source file is absent (only its test, `TestNewMetal3Containers`, is at hand).
Per resolved mode it yields the seven services and, unless the mode is Disabled, the
sidecar that depends on managed network control: 8 containers for Managed and
Unmanaged, 7 for Disabled. The image registry and the fallback host IP the test passes
give the containers their values, not their number, and are left out. -/
def newMetal3Containers (config : ProvisioningSpec) : List Container :=
  let services := (List.finRange 7).map Container.service
  if getProvisioningNetworkMode { Name := "", Spec := config } =
      ProvisioningNetworkDisabled then
    services
  else
    services ++ [Container.networkSidecar]

/-! ## Admission webhook -/

/-- The method `ValidateCreate` of `provisioning_webhook.go`. The constant
`ProvisioningSingletonName` and the method `r.ValidateBaremetalProvisioningConfig()`
are declared in files of the api package that are absent from the sources at hand;
they are the arguments `ProvisioningSingletonName` and `validateConfig`. -/
def ValidateCreate (ProvisioningSingletonName : String)
    (validateConfig : Provisioning → Except String Unit) (r : Provisioning) :
    Except String Unit :=
  if r.Name ≠ ProvisioningSingletonName then
    .error ("Provisioning object is a singleton and must be named \"" ++
      ProvisioningSingletonName ++ "\"")
  else
    validateConfig r

/-- The method `ValidateUpdate` of `provisioning_webhook.go`; the old object is not
read. -/
def ValidateUpdate (validateConfig : Provisioning → Except String Unit)
    (r : Provisioning) : Except String Unit :=
  validateConfig r

/-- The method `ValidateDelete` of `provisioning_webhook.go`. -/
def ValidateDelete (_r : Provisioning) : Except String Unit :=
  .ok ()

/-- The `managedSpec` of the test suite under a name of its own choosing. -/
def otherNameProv : Provisioning :=
  { Name := "my-provisioning", Spec := managedSpec }

/-! ## Theorems: mode resolution and validation -/

/-- C1: for every config whose resolved mode is Managed, validation fails if and only
if one of ProvisioningInterface, ProvisioningIP, ProvisioningNetworkCIDR,
ProvisioningDHCPRange, ProvisioningOSDownloadURL is empty, and the error then names the
first empty field in that order. -/
theorem validate_managed_first_empty (prov : Provisioning)
    (hmode : getProvisioningNetworkMode prov = ProvisioningNetworkManaged) :
    ((∃ e, ValidateBaremetalProvisioningConfig prov = .error e) ↔
      (prov.Spec.ProvisioningInterface = "" ∨ prov.Spec.ProvisioningIP = "" ∨
        prov.Spec.ProvisioningNetworkCIDR = "" ∨ prov.Spec.ProvisioningDHCPRange = "" ∨
        prov.Spec.ProvisioningOSDownloadURL = "")) ∧
    (prov.Spec.ProvisioningInterface = "" →
      ValidateBaremetalProvisioningConfig prov =
        .error "ProvisioningInterface is required but is empty") ∧
    (prov.Spec.ProvisioningInterface ≠ "" → prov.Spec.ProvisioningIP = "" →
      ValidateBaremetalProvisioningConfig prov =
        .error "ProvisioningIP is required but is empty") ∧
    (prov.Spec.ProvisioningInterface ≠ "" → prov.Spec.ProvisioningIP ≠ "" →
      prov.Spec.ProvisioningNetworkCIDR = "" →
      ValidateBaremetalProvisioningConfig prov =
        .error "ProvisioningNetworkCIDR is required but is empty") ∧
    (prov.Spec.ProvisioningInterface ≠ "" → prov.Spec.ProvisioningIP ≠ "" →
      prov.Spec.ProvisioningNetworkCIDR ≠ "" → prov.Spec.ProvisioningDHCPRange = "" →
      ValidateBaremetalProvisioningConfig prov =
        .error "ProvisioningDHCPRange is required but is empty") ∧
    (prov.Spec.ProvisioningInterface ≠ "" → prov.Spec.ProvisioningIP ≠ "" →
      prov.Spec.ProvisioningNetworkCIDR ≠ "" → prov.Spec.ProvisioningDHCPRange ≠ "" →
      prov.Spec.ProvisioningOSDownloadURL = "" →
      ValidateBaremetalProvisioningConfig prov =
        .error "ProvisioningOSDownloadURL is required but is empty") ∧
    (prov.Spec.ProvisioningInterface ≠ "" → prov.Spec.ProvisioningIP ≠ "" →
      prov.Spec.ProvisioningNetworkCIDR ≠ "" → prov.Spec.ProvisioningDHCPRange ≠ "" →
      prov.Spec.ProvisioningOSDownloadURL ≠ "" →
      ValidateBaremetalProvisioningConfig prov = .ok ()) := by
  have hV : ValidateBaremetalProvisioningConfig prov = validateManagedConfig prov := by
    simp [ValidateBaremetalProvisioningConfig, hmode]
  rw [hV]
  simp only [validateManagedConfig, rangeToTest]
  by_cases h1 : prov.Spec.ProvisioningInterface = "" <;>
  by_cases h2 : prov.Spec.ProvisioningIP = "" <;>
  by_cases h3 : prov.Spec.ProvisioningNetworkCIDR = "" <;>
  by_cases h4 : prov.Spec.ProvisioningDHCPRange = "" <;>
  by_cases h5 : prov.Spec.ProvisioningOSDownloadURL = "" <;>
  simp [h1, h2, h3, h4, h5]

/-- C1, at a Managed config whose ProvisioningIP and ProvisioningDHCPRange are both
empty: the error names ProvisioningIP, the first of the two. -/
theorem validate_managed_first_empty_witness :
    getProvisioningNetworkMode
        { managedProv with Spec := { managedSpec with ProvisioningIP := "",
                                                       ProvisioningDHCPRange := "" } } =
      ProvisioningNetworkManaged ∧
    ValidateBaremetalProvisioningConfig
        { managedProv with Spec := { managedSpec with ProvisioningIP := "",
                                                       ProvisioningDHCPRange := "" } } =
      .error "ProvisioningIP is required but is empty" :=
  ⟨by decide,
   (validate_managed_first_empty
      { managedProv with Spec := { managedSpec with ProvisioningIP := "",
                                                     ProvisioningDHCPRange := "" } }
      (by decide)).2.2.1 (by decide) (by decide)⟩

/-- C2: for every config with networkMode = Disabled, validation succeeds if and only
if ProvisioningNetworkCIDR and ProvisioningOSDownloadURL are both non-empty, and
replacing ProvisioningInterface, ProvisioningIP and ProvisioningDHCPRange by any values
leaves the result unchanged; an empty interface name with the two required fields
present is valid. -/
theorem validate_disabled_two_fields (prov : Provisioning)
    (hmode : prov.Spec.ProvisioningNetwork = ProvisioningNetworkDisabled) :
    (ValidateBaremetalProvisioningConfig prov = .ok () ↔
      (prov.Spec.ProvisioningNetworkCIDR ≠ "" ∧ prov.Spec.ProvisioningOSDownloadURL ≠ "")) ∧
    (∀ iface ip range : String,
      ValidateBaremetalProvisioningConfig
          { prov with Spec := { prov.Spec with ProvisioningInterface := iface,
                                               ProvisioningIP := ip,
                                               ProvisioningDHCPRange := range } } =
        ValidateBaremetalProvisioningConfig prov) ∧
    (prov.Spec.ProvisioningInterface = "" → prov.Spec.ProvisioningNetworkCIDR ≠ "" →
      prov.Spec.ProvisioningOSDownloadURL ≠ "" →
      ValidateBaremetalProvisioningConfig prov = .ok ()) := by
  have hres : ∀ p : Provisioning, p.Spec.ProvisioningNetwork = ProvisioningNetworkDisabled →
      ValidateBaremetalProvisioningConfig p = validateDisabledConfig p := by
    intro p hp
    have hm : getProvisioningNetworkMode p = ProvisioningNetworkDisabled := by
      simp [getProvisioningNetworkMode, hp, ProvisioningNetworkDisabled]
    simp [ValidateBaremetalProvisioningConfig, hm, ProvisioningNetworkDisabled,
      ProvisioningNetworkManaged, ProvisioningNetworkUnmanaged]
  refine ⟨?_, ?_, ?_⟩
  · rw [hres prov hmode]
    simp only [validateDisabledConfig, rangeToTest]
    by_cases h3 : prov.Spec.ProvisioningNetworkCIDR = "" <;>
    by_cases h5 : prov.Spec.ProvisioningOSDownloadURL = "" <;>
    simp [h3, h5]
  · intro iface ip range
    have hnew := hres
      ({ prov with
          Spec := { prov.Spec with
                    ProvisioningInterface := iface
                    ProvisioningIP := ip
                    ProvisioningDHCPRange := range } })
      hmode
    rw [hnew, hres prov hmode]
    simp only [validateDisabledConfig]
  · intro _ h3 h5
    rw [hres prov hmode]
    simp [validateDisabledConfig, rangeToTest, h3, h5]

/-- C2, at the `disabledSpec` of the test suite, whose interface name is empty: the
config is valid. -/
theorem validate_disabled_two_fields_witness :
    disabledProv.Spec.ProvisioningNetwork = ProvisioningNetworkDisabled ∧
    disabledProv.Spec.ProvisioningInterface = "" ∧
    ValidateBaremetalProvisioningConfig disabledProv = .ok () :=
  ⟨by decide, by decide,
   (validate_disabled_two_fields disabledProv (by decide)).2.2
     (by decide) (by decide) (by decide)⟩

/-- C3: for every config whose resolved mode is Unmanaged, validation succeeds if and
only if ProvisioningInterface, ProvisioningIP, ProvisioningNetworkCIDR and
ProvisioningOSDownloadURL are all non-empty, a failure names the first empty one in
that order, and replacing ProvisioningDHCPRange by any value leaves the result
unchanged. -/
theorem validate_unmanaged_first_empty (prov : Provisioning)
    (hmode : getProvisioningNetworkMode prov = ProvisioningNetworkUnmanaged) :
    (ValidateBaremetalProvisioningConfig prov = .ok () ↔
      (prov.Spec.ProvisioningInterface ≠ "" ∧ prov.Spec.ProvisioningIP ≠ "" ∧
        prov.Spec.ProvisioningNetworkCIDR ≠ "" ∧
        prov.Spec.ProvisioningOSDownloadURL ≠ "")) ∧
    (prov.Spec.ProvisioningInterface = "" →
      ValidateBaremetalProvisioningConfig prov =
        .error "ProvisioningInterface is required but is empty") ∧
    (prov.Spec.ProvisioningInterface ≠ "" → prov.Spec.ProvisioningIP = "" →
      ValidateBaremetalProvisioningConfig prov =
        .error "ProvisioningIP is required but is empty") ∧
    (prov.Spec.ProvisioningInterface ≠ "" → prov.Spec.ProvisioningIP ≠ "" →
      prov.Spec.ProvisioningNetworkCIDR = "" →
      ValidateBaremetalProvisioningConfig prov =
        .error "ProvisioningNetworkCIDR is required but is empty") ∧
    (prov.Spec.ProvisioningInterface ≠ "" → prov.Spec.ProvisioningIP ≠ "" →
      prov.Spec.ProvisioningNetworkCIDR ≠ "" → prov.Spec.ProvisioningOSDownloadURL = "" →
      ValidateBaremetalProvisioningConfig prov =
        .error "ProvisioningOSDownloadURL is required but is empty") ∧
    (∀ range : String,
      ValidateBaremetalProvisioningConfig
          { prov with Spec := { prov.Spec with ProvisioningDHCPRange := range } } =
        ValidateBaremetalProvisioningConfig prov) := by
  have hres : ∀ p : Provisioning,
      getProvisioningNetworkMode p = ProvisioningNetworkUnmanaged →
      ValidateBaremetalProvisioningConfig p = validateUnmanagedConfig p := by
    intro p hp
    simp [ValidateBaremetalProvisioningConfig, hp, ProvisioningNetworkManaged,
      ProvisioningNetworkUnmanaged]
  have hmode2 : ∀ range : String, getProvisioningNetworkMode
      { prov with Spec := { prov.Spec with ProvisioningDHCPRange := range } } =
      ProvisioningNetworkUnmanaged := by
    intro range
    simpa [getProvisioningNetworkMode] using hmode
  refine ⟨?_, ?_, ?_, ?_, ?_, ?_⟩
  all_goals first
    | (intro range
       rw [hres prov hmode, hres _ (hmode2 range)]
       simp only [validateUnmanagedConfig])
    | (rw [hres prov hmode]
       simp only [validateUnmanagedConfig, rangeToTest]
       by_cases h1 : prov.Spec.ProvisioningInterface = "" <;>
       by_cases h2 : prov.Spec.ProvisioningIP = "" <;>
       by_cases h3 : prov.Spec.ProvisioningNetworkCIDR = "" <;>
       by_cases h5 : prov.Spec.ProvisioningOSDownloadURL = "" <;>
       simp [h1, h2, h3, h5])

/-- C3, at the `unmanagedSpec` of the test suite, whose ProvisioningDHCPRange is empty:
the config is valid. -/
theorem validate_unmanaged_first_empty_witness :
    getProvisioningNetworkMode unmanagedProv = ProvisioningNetworkUnmanaged ∧
    unmanagedProv.Spec.ProvisioningDHCPRange = "" ∧
    ValidateBaremetalProvisioningConfig unmanagedProv = .ok () :=
  ⟨by decide, by decide,
   (validate_unmanaged_first_empty unmanagedProv (by decide)).1.mpr (by decide)⟩

/-- C4: for every config with a non-empty networkMode, `getProvisioningNetworkMode`
returns that networkMode unchanged, whatever the value of ProvisioningDHCPExternal. -/
theorem mode_explicit_verbatim (prov : Provisioning)
    (hset : prov.Spec.ProvisioningNetwork ≠ "") :
    getProvisioningNetworkMode prov = prov.Spec.ProvisioningNetwork ∧
    ∀ dhcpExternal : Bool,
      getProvisioningNetworkMode
          { prov with Spec := { prov.Spec with ProvisioningDHCPExternal := dhcpExternal } } =
        prov.Spec.ProvisioningNetwork := by
  constructor
  · simp [getProvisioningNetworkMode, hset]
  · intro dhcpExternal
    simp [getProvisioningNetworkMode, hset]

/-- C4, at the Disabled config of the test suite with the deprecated flag set: the mode
stays Disabled. -/
theorem mode_explicit_verbatim_witness :
    disabledProv.Spec.ProvisioningNetwork ≠ "" ∧
    getProvisioningNetworkMode
        { disabledProv with
          Spec := { disabledProv.Spec with ProvisioningDHCPExternal := true } } =
      "Disabled" :=
  ⟨by decide, (mode_explicit_verbatim disabledProv (by decide)).2 true⟩

/-- C5: for every config with an empty networkMode, `getProvisioningNetworkMode`
returns Managed when ProvisioningDHCPExternal is false and Unmanaged when it is
true. -/
theorem mode_default_from_flag (prov : Provisioning)
    (hunset : prov.Spec.ProvisioningNetwork = "") :
    (prov.Spec.ProvisioningDHCPExternal = false →
      getProvisioningNetworkMode prov = ProvisioningNetworkManaged) ∧
    (prov.Spec.ProvisioningDHCPExternal = true →
      getProvisioningNetworkMode prov = ProvisioningNetworkUnmanaged) := by
  constructor <;> intro hflag <;> simp [getProvisioningNetworkMode, hunset, hflag]

/-- C5, at a config that sets no mode: Managed without the deprecated flag, Unmanaged
with it. -/
theorem mode_default_from_flag_witness :
    (legacyProv false).Spec.ProvisioningNetwork = "" ∧
    (legacyProv true).Spec.ProvisioningNetwork = "" ∧
    getProvisioningNetworkMode (legacyProv false) = "Managed" ∧
    getProvisioningNetworkMode (legacyProv true) = "Unmanaged" :=
  ⟨by decide, by decide,
   (mode_default_from_flag (legacyProv false) (by decide)).1 (by decide),
   (mode_default_from_flag (legacyProv true) (by decide)).2 (by decide)⟩

/-! ## Theorems: derived parameters -/

namespace net

/-- The mask `CIDRMask n 32` has `n` leading ones, as `IPMask.Size` counts them. -/
theorem size_CIDRMask_v4 : ∀ n, n ≤ 32 → IPMask.Size (CIDRMask n 32) = ((n : Int), 32) := by
  decide

/-- The mask `CIDRMask n 128` has `n` leading ones, as `IPMask.Size` counts them. -/
theorem size_CIDRMask_v6 : ∀ n, n ≤ 128 → IPMask.Size (CIDRMask n 128) = ((n : Int), 128) := by
  decide

/-- For the model of Go's parser, the mask length `IPMask.Size` reports for a parsed
CIDR is the decimal number written after the slash. -/
theorem ParseCIDR_mask_size (s : String) (ipnet : IPNet) (h : ParseCIDR s = some ipnet) :
    (dtoi (s.toList.drop (s.toList.indexOf '/' + 1))).2.2 = true ∧
    (ipnet.Mask.Size).1 = ((dtoi (s.toList.drop (s.toList.indexOf '/' + 1))).1 : Int) := by
  unfold ParseCIDR at h
  simp only at h
  generalize dtoi (s.toList.drop (s.toList.indexOf '/' + 1)) = r at h ⊢
  generalize parseIPv4 (s.toList.take (s.toList.indexOf '/')) = a at h
  generalize parseIPv6 (s.toList.take (s.toList.indexOf '/')) = b at h
  by_cases hi : s.toList.indexOf '/' ≥ s.toList.length
  · rw [if_pos hi] at h
    exact absurd h (by simp)
  · rw [if_neg hi] at h
    cases a with
    | some ip4 =>
      simp only [reduceCtorEq, if_false] at h
      split at h
      · exact absurd h (by simp)
      · rename_i hok
        simp only [not_or, Bool.not_eq_true', Bool.not_eq_false, Bool.not_eq_true,
          not_not, not_lt, gt_iff_lt, Bool.not_eq_eq_eq_not, Bool.not_true] at hok
        have hm := (Option.some.inj h)
        subst hm
        refine ⟨by simpa using hok.1, ?_⟩
        have := size_CIDRMask_v4 r.1 (by simpa [IPv4len] using hok.2.2)
        simp only [IPv4len]
        rw [this]
    | none =>
      simp only [if_true] at h
      cases b with
      | none => simp at h
      | some ip6 =>
        simp only at h
        split at h
        · exact absurd h (by simp)
        · rename_i hok
          simp only [not_or, Bool.not_eq_true', Bool.not_eq_false, Bool.not_eq_true,
            not_not, not_lt, gt_iff_lt, Bool.not_eq_eq_eq_not, Bool.not_true] at hok
          have hm := (Option.some.inj h)
          subst hm
          refine ⟨by simpa using hok.1, ?_⟩
          have := size_CIDRMask_v6 r.1 (by simpa [IPv6len] using hok.2.2)
          simp only [IPv6len]
          rw [this]

end net

/-- The decimal text of a non-negative `int` is the decimal text of the number. -/
theorem toString_natCast (n : Nat) : toString (n : Int) = toString n := rfl

/-- C6: for every config in which ProvisioningIP and ProvisioningNetworkCIDR are both
non-empty and ProvisioningNetworkCIDR parses as a CIDR whose mask has n leading ones,
the PROVISIONING_IP parameter is present and is ProvisioningIP followed by "/" and the
decimal form of n. -/
theorem provisioning_ip_cidr_form (parseCIDR : String → Option net.IPNet)
    (config : ProvisioningSpec) (ipnet : net.IPNet) (n : Nat)
    (hip : config.ProvisioningIP ≠ "") (hcidr : config.ProvisioningNetworkCIDR ≠ "")
    (hparse : parseCIDR config.ProvisioningNetworkCIDR = some ipnet)
    (hsize : (ipnet.Mask.Size).1 = (n : Int)) :
    getMetal3DeploymentConfig parseCIDR "PROVISIONING_IP" config =
      some (config.ProvisioningIP ++ "/" ++ toString n) := by
  have hname : getMetal3DeploymentConfig parseCIDR "PROVISIONING_IP" config =
      getProvisioningIPCIDR parseCIDR config := by
    simp [getMetal3DeploymentConfig, provisioningIP]
  rw [hname]
  simp [getProvisioningIPCIDR, hip, hcidr, hparse, hsize, toString_natCast]

/-- C6, at the `managedSpec` of the test suite, with the model of Go's parser: the ip
172.30.20.3 with the CIDR 172.30.20.0/24 gives "172.30.20.3/24". -/
theorem provisioning_ip_cidr_form_witness :
    managedSpec.ProvisioningIP = "172.30.20.3" ∧
    managedSpec.ProvisioningNetworkCIDR = "172.30.20.0/24" ∧
    net.ParseCIDR "172.30.20.0/24" =
      some { IP := [172, 30, 20, 0], Mask := [255, 255, 255, 0] } ∧
    getMetal3DeploymentConfig net.ParseCIDR "PROVISIONING_IP" managedSpec =
      some "172.30.20.3/24" :=
  ⟨by decide, by decide, by decide,
   provisioning_ip_cidr_form net.ParseCIDR managedSpec
     { IP := [172, 30, 20, 0], Mask := [255, 255, 255, 0] } 24
     (by decide) (by decide) (by decide) (by decide)⟩

/-- C7, refuted as stated: the IPv6 address fd00:1101::3 is not inserted directly;
`net.JoinHostPort` puts it in square brackets, so neither URL is
"http://" ++ ProvisioningIP ++ ":6180/...". -/
theorem deploy_urls_ipv6_not_direct :
    ipv6Spec.ProvisioningIP ≠ "" ∧
    getMetal3DeploymentConfig net.ParseCIDR "DEPLOY_KERNEL_URL" ipv6Spec =
      some "http://[fd00:1101::3]:6180/images/ironic-python-agent.kernel" ∧
    getMetal3DeploymentConfig net.ParseCIDR "DEPLOY_RAMDISK_URL" ipv6Spec =
      some "http://[fd00:1101::3]:6180/images/ironic-python-agent.initramfs" ∧
    ¬ (getMetal3DeploymentConfig net.ParseCIDR "DEPLOY_KERNEL_URL" ipv6Spec =
        some ("http://" ++ ipv6Spec.ProvisioningIP ++
          ":6180/images/ironic-python-agent.kernel") ∧
      getMetal3DeploymentConfig net.ParseCIDR "DEPLOY_RAMDISK_URL" ipv6Spec =
        some ("http://" ++ ipv6Spec.ProvisioningIP ++
          ":6180/images/ironic-python-agent.initramfs")) := by
  decide

/-- C7, amended: for every config with a non-empty ProvisioningIP, the DEPLOY_KERNEL_URL
and DEPLOY_RAMDISK_URL parameters are "http://" ++ ProvisioningIP ++ ":6180/" ++ subpath
when ProvisioningIP contains no colon, and "http://[" ++ ProvisioningIP ++ "]:6180/" ++
subpath when it contains one (an IPv6 literal), whatever the CIDR parser. -/
theorem deploy_urls_with_ip (parseCIDR : String → Option net.IPNet)
    (config : ProvisioningSpec) (hip : config.ProvisioningIP ≠ "") :
    (':' ∉ config.ProvisioningIP.toList →
      getMetal3DeploymentConfig parseCIDR "DEPLOY_KERNEL_URL" config =
        some ("http://" ++ config.ProvisioningIP ++
          ":6180/images/ironic-python-agent.kernel") ∧
      getMetal3DeploymentConfig parseCIDR "DEPLOY_RAMDISK_URL" config =
        some ("http://" ++ config.ProvisioningIP ++
          ":6180/images/ironic-python-agent.initramfs")) ∧
    (':' ∈ config.ProvisioningIP.toList →
      getMetal3DeploymentConfig parseCIDR "DEPLOY_KERNEL_URL" config =
        some ("http://[" ++ config.ProvisioningIP ++
          "]:6180/images/ironic-python-agent.kernel") ∧
      getMetal3DeploymentConfig parseCIDR "DEPLOY_RAMDISK_URL" config =
        some ("http://[" ++ config.ProvisioningIP ++
          "]:6180/images/ironic-python-agent.initramfs")) := by
  have hk : getMetal3DeploymentConfig parseCIDR "DEPLOY_KERNEL_URL" config =
      getDeployKernelUrl parseCIDR config := by
    simp [getMetal3DeploymentConfig, provisioningIP, provisioningInterface, deployKernelUrl]
  have hr : getMetal3DeploymentConfig parseCIDR "DEPLOY_RAMDISK_URL" config =
      getDeployRamdiskUrl parseCIDR config := by
    simp [getMetal3DeploymentConfig, provisioningIP, provisioningInterface, deployKernelUrl,
      deployRamdiskUrl]
  rw [hk, hr]
  constructor
  · intro hcolon
    simp only [getDeployKernelUrl, getDeployRamdiskUrl, net.JoinHostPort, hip, hcolon,
      ne_eq, not_false_eq_true, if_true, if_false, String.append_assoc]
    exact ⟨rfl, rfl⟩
  · intro hcolon
    simp only [getDeployKernelUrl, getDeployRamdiskUrl, net.JoinHostPort, hip, hcolon,
      ne_eq, not_false_eq_true, if_true, String.append_assoc]
    exact ⟨rfl, rfl⟩

/-- C7 as amended, at the `managedSpec` of the test suite (an IPv4 address, no colon)
and at an IPv6 address. -/
theorem deploy_urls_with_ip_witness :
    managedSpec.ProvisioningIP ≠ "" ∧ ipv6Spec.ProvisioningIP ≠ "" ∧
    getMetal3DeploymentConfig net.ParseCIDR "DEPLOY_KERNEL_URL" managedSpec =
      some "http://172.30.20.3:6180/images/ironic-python-agent.kernel" ∧
    getMetal3DeploymentConfig net.ParseCIDR "DEPLOY_RAMDISK_URL" ipv6Spec =
      some "http://[fd00:1101::3]:6180/images/ironic-python-agent.initramfs" :=
  ⟨by decide, by decide,
   ((deploy_urls_with_ip net.ParseCIDR managedSpec (by decide)).1 (by decide)).1,
   ((deploy_urls_with_ip net.ParseCIDR ipv6Spec (by decide)).2 (by decide)).2⟩

/-- C8: for every config with an empty ProvisioningIP, the host part of the
DEPLOY_KERNEL_URL and DEPLOY_RAMDISK_URL parameters is "[$(PROVISIONING_IP)]:6180" if
and only if ProvisioningNetworkCIDR parses and the network address is IPv6 (`To4` gives
`nil`); when it fails to parse, or parses to an IPv4 network, the host part is
"$(PROVISIONING_IP):6180", and so it is for an empty ProvisioningNetworkCIDR, which
the parser rejects. -/
theorem deploy_urls_placeholder (parseCIDR : String → Option net.IPNet)
    (config : ProvisioningSpec) (hip : config.ProvisioningIP = "") :
    (getMetal3DeploymentConfig parseCIDR "DEPLOY_KERNEL_URL" config =
        some "http://[$(PROVISIONING_IP)]:6180/images/ironic-python-agent.kernel" ↔
      ∃ ipnet, parseCIDR config.ProvisioningNetworkCIDR = some ipnet ∧
        ipnet.IP.To4 = none) ∧
    (getMetal3DeploymentConfig parseCIDR "DEPLOY_RAMDISK_URL" config =
        some "http://[$(PROVISIONING_IP)]:6180/images/ironic-python-agent.initramfs" ↔
      ∃ ipnet, parseCIDR config.ProvisioningNetworkCIDR = some ipnet ∧
        ipnet.IP.To4 = none) ∧
    (parseCIDR config.ProvisioningNetworkCIDR = none →
      getMetal3DeploymentConfig parseCIDR "DEPLOY_KERNEL_URL" config =
        some "http://$(PROVISIONING_IP):6180/images/ironic-python-agent.kernel" ∧
      getMetal3DeploymentConfig parseCIDR "DEPLOY_RAMDISK_URL" config =
        some "http://$(PROVISIONING_IP):6180/images/ironic-python-agent.initramfs") ∧
    (∀ ipnet, parseCIDR config.ProvisioningNetworkCIDR = some ipnet →
      ipnet.IP.To4 ≠ none →
      getMetal3DeploymentConfig parseCIDR "DEPLOY_KERNEL_URL" config =
        some "http://$(PROVISIONING_IP):6180/images/ironic-python-agent.kernel" ∧
      getMetal3DeploymentConfig parseCIDR "DEPLOY_RAMDISK_URL" config =
        some "http://$(PROVISIONING_IP):6180/images/ironic-python-agent.initramfs") ∧
    (parseCIDR "" = none → config.ProvisioningNetworkCIDR = "" →
      getMetal3DeploymentConfig parseCIDR "DEPLOY_KERNEL_URL" config =
        some "http://$(PROVISIONING_IP):6180/images/ironic-python-agent.kernel" ∧
      getMetal3DeploymentConfig parseCIDR "DEPLOY_RAMDISK_URL" config =
        some "http://$(PROVISIONING_IP):6180/images/ironic-python-agent.initramfs") := by
  have hk : getMetal3DeploymentConfig parseCIDR "DEPLOY_KERNEL_URL" config =
      some ("http://" ++ joinHostIPPort parseCIDR config "6180" ++ "/" ++
        "images/ironic-python-agent.kernel") := by
    simp [getMetal3DeploymentConfig, provisioningIP, provisioningInterface, deployKernelUrl,
      getDeployKernelUrl, hip, baremetalHttpPort, baremetalKernelUrlSubPath]
  have hr : getMetal3DeploymentConfig parseCIDR "DEPLOY_RAMDISK_URL" config =
      some ("http://" ++ joinHostIPPort parseCIDR config "6180" ++ "/" ++
        "images/ironic-python-agent.initramfs") := by
    simp [getMetal3DeploymentConfig, provisioningIP, provisioningInterface, deployKernelUrl,
      deployRamdiskUrl, getDeployRamdiskUrl, hip, baremetalHttpPort,
      baremetalRamdiskUrlSubPath]
  have hnone : parseCIDR config.ProvisioningNetworkCIDR = none →
      joinHostIPPort parseCIDR config "6180" = "$(PROVISIONING_IP):6180" := by
    intro h
    simp only [joinHostIPPort, h]
    rfl
  have hv4 : ∀ ipnet, parseCIDR config.ProvisioningNetworkCIDR = some ipnet →
      ipnet.IP.To4 ≠ none →
      joinHostIPPort parseCIDR config "6180" = "$(PROVISIONING_IP):6180" := by
    intro ipnet h h4
    simp only [joinHostIPPort, h, h4, if_false]
    rfl
  have hv6 : ∀ ipnet, parseCIDR config.ProvisioningNetworkCIDR = some ipnet →
      ipnet.IP.To4 = none →
      joinHostIPPort parseCIDR config "6180" = "[$(PROVISIONING_IP)]:6180" := by
    intro ipnet h h6
    simp only [joinHostIPPort, h, h6, if_true]
    rfl
  rw [hk, hr]
  refine ⟨?_, ?_, ?_, ?_, ?_⟩
  · cases hp : parseCIDR config.ProvisioningNetworkCIDR with
    | none => rw [hnone hp]; simp
    | some ipnet =>
      by_cases h6 : ipnet.IP.To4 = none
      · rw [hv6 ipnet hp h6]; simp [h6]
      · rw [hv4 ipnet hp h6]; simp [h6]
  · cases hp : parseCIDR config.ProvisioningNetworkCIDR with
    | none => rw [hnone hp]; simp
    | some ipnet =>
      by_cases h6 : ipnet.IP.To4 = none
      · rw [hv6 ipnet hp h6]; simp [h6]
      · rw [hv4 ipnet hp h6]; simp [h6]
  · intro hp
    rw [hnone hp]
    exact ⟨rfl, rfl⟩
  · intro ipnet hp h4
    rw [hv4 ipnet hp h4]
    exact ⟨rfl, rfl⟩
  · intro hempty hc
    rw [hnone (by rw [hc]; exact hempty)]
    exact ⟨rfl, rfl⟩

/-- C8, with the model of Go's parser: an IPv6 CIDR gives the bracketed placeholder,
and an empty CIDR, which does not parse, the plain one. -/
theorem deploy_urls_placeholder_witness :
    ipv6HostSpec.ProvisioningIP = "" ∧ bareSpec.ProvisioningIP = "" ∧
    bareSpec.ProvisioningNetworkCIDR = "" ∧ net.ParseCIDR "" = none ∧
    getMetal3DeploymentConfig net.ParseCIDR "DEPLOY_KERNEL_URL" ipv6HostSpec =
      some "http://[$(PROVISIONING_IP)]:6180/images/ironic-python-agent.kernel" ∧
    getMetal3DeploymentConfig net.ParseCIDR "DEPLOY_RAMDISK_URL" bareSpec =
      some "http://$(PROVISIONING_IP):6180/images/ironic-python-agent.initramfs" :=
  ⟨by decide, by decide, by decide, by decide,
   (deploy_urls_placeholder net.ParseCIDR ipv6HostSpec (by decide)).1.mpr
     ⟨{ IP := [0xfd, 0, 0x11, 1, 0, 0, 0, 0, 0, 0, 0, 0, 0, 0, 0, 0],
        Mask := [255, 255, 255, 255, 255, 255, 255, 255, 0, 0, 0, 0, 0, 0, 0, 0] },
      by decide, by decide⟩,
   ((deploy_urls_placeholder net.ParseCIDR bareSpec (by decide)).2.2.2.2
     (by decide) (by decide)).2⟩

/-- C9: for every config in which ProvisioningIP is empty, or ProvisioningNetworkCIDR
is empty, or ProvisioningNetworkCIDR does not parse, the PROVISIONING_IP parameter is
absent; and whenever it is present it is the whole value, ProvisioningIP followed by
"/" and the mask length of the parsed network, never a part of it. -/
theorem provisioning_ip_absent (parseCIDR : String → Option net.IPNet)
    (config : ProvisioningSpec) :
    ((config.ProvisioningIP = "" ∨ config.ProvisioningNetworkCIDR = "" ∨
        parseCIDR config.ProvisioningNetworkCIDR = none) →
      getMetal3DeploymentConfig parseCIDR "PROVISIONING_IP" config = none) ∧
    (∀ v, getMetal3DeploymentConfig parseCIDR "PROVISIONING_IP" config = some v →
      config.ProvisioningIP ≠ "" ∧ config.ProvisioningNetworkCIDR ≠ "" ∧
      ∃ ipnet, parseCIDR config.ProvisioningNetworkCIDR = some ipnet ∧
        v = config.ProvisioningIP ++ "/" ++ toString (ipnet.Mask.Size).1) := by
  have hname : getMetal3DeploymentConfig parseCIDR "PROVISIONING_IP" config =
      getProvisioningIPCIDR parseCIDR config := by
    simp [getMetal3DeploymentConfig, provisioningIP]
  rw [hname]
  constructor
  · intro h
    rcases h with h | h | h
    · simp [getProvisioningIPCIDR, h]
    · simp [getProvisioningIPCIDR, h]
    · simp [getProvisioningIPCIDR, h]
  · intro v hv
    by_cases hc : config.ProvisioningNetworkCIDR = ""
    · simp [getProvisioningIPCIDR, hc] at hv
    · by_cases hi : config.ProvisioningIP = ""
      · simp [getProvisioningIPCIDR, hi] at hv
      · cases hp : parseCIDR config.ProvisioningNetworkCIDR with
        | none => simp [getProvisioningIPCIDR, hp] at hv
        | some ipnet =>
          simp [getProvisioningIPCIDR, hc, hi, hp] at hv
          exact ⟨hi, hc, ipnet, rfl, hv.symm⟩

/-- C9, with the model of Go's parser: the parameter is absent without an address,
without a CIDR, and with the text 172.30.20.0/240, which is no CIDR. -/
theorem provisioning_ip_absent_witness :
    net.ParseCIDR "172.30.20.0/240" = none ∧
    getMetal3DeploymentConfig net.ParseCIDR "PROVISIONING_IP" ipv6HostSpec = none ∧
    getMetal3DeploymentConfig net.ParseCIDR "PROVISIONING_IP" bareSpec = none ∧
    getMetal3DeploymentConfig net.ParseCIDR "PROVISIONING_IP" badCIDRSpec = none :=
  ⟨by decide,
   (provisioning_ip_absent net.ParseCIDR ipv6HostSpec).1 (Or.inl (by decide)),
   (provisioning_ip_absent net.ParseCIDR bareSpec).1 (Or.inr (Or.inl (by decide))),
   (provisioning_ip_absent net.ParseCIDR badCIDRSpec).1 (Or.inr (Or.inr (by decide)))⟩

/-- C10: for every config, the RHCOS_IMAGE_URL parameter is present and equal to
ProvisioningOSDownloadURL, character for character, when that field is non-empty, and
absent when it is empty. -/
theorem os_download_url_verbatim (parseCIDR : String → Option net.IPNet)
    (config : ProvisioningSpec) :
    (config.ProvisioningOSDownloadURL ≠ "" →
      getMetal3DeploymentConfig parseCIDR "RHCOS_IMAGE_URL" config =
        some config.ProvisioningOSDownloadURL) ∧
    (config.ProvisioningOSDownloadURL = "" →
      getMetal3DeploymentConfig parseCIDR "RHCOS_IMAGE_URL" config = none) := by
  have hname : getMetal3DeploymentConfig parseCIDR "RHCOS_IMAGE_URL" config =
      getProvisioningOSDownloadURL config := by
    simp [getMetal3DeploymentConfig, provisioningIP, provisioningInterface, deployKernelUrl,
      deployRamdiskUrl, ironicEndpoint, ironicInspectorEndpoint, httpPort, dhcpRange,
      machineImageUrl]
  rw [hname]
  constructor <;> intro h <;> simp [getProvisioningOSDownloadURL, h]

/-- C10, at the `disabledSpec` of the test suite, whose download URL carries a query
string: the parameter is that URL, unchanged. -/
theorem os_download_url_verbatim_witness :
    getMetal3DeploymentConfig net.ParseCIDR "RHCOS_IMAGE_URL" disabledSpec =
      some "http://172.22.0.1/images/rhcos-44.81.202001171431.0-openstack.x86_64.qcow2.gz?sha256=e98f83a2b9d4043719664a2be75fe8134dc6ca1fdbde807996622f8cc7ecd234" ∧
    getMetal3DeploymentConfig net.ParseCIDR "RHCOS_IMAGE_URL"
      { disabledSpec with ProvisioningOSDownloadURL := "" } = none :=
  ⟨(os_download_url_verbatim net.ParseCIDR disabledSpec).1 (by decide),
   (os_download_url_verbatim net.ParseCIDR
      { disabledSpec with ProvisioningOSDownloadURL := "" }).2 (by decide)⟩

/-- C11: for every config, the PROVISIONING_INTERFACE parameter is always present and
equals ProvisioningInterface verbatim, and the DHCP_RANGE parameter is always present
and equals ProvisioningDHCPRange verbatim; an empty field yields the present empty
string, never absent. -/
theorem interface_and_range_verbatim (parseCIDR : String → Option net.IPNet)
    (config : ProvisioningSpec) :
    getMetal3DeploymentConfig parseCIDR "PROVISIONING_INTERFACE" config =
      some config.ProvisioningInterface ∧
    getMetal3DeploymentConfig parseCIDR "DHCP_RANGE" config =
      some config.ProvisioningDHCPRange ∧
    (config.ProvisioningInterface = "" →
      getMetal3DeploymentConfig parseCIDR "PROVISIONING_INTERFACE" config = some "") ∧
    (config.ProvisioningDHCPRange = "" →
      getMetal3DeploymentConfig parseCIDR "DHCP_RANGE" config = some "") := by
  have hi : getMetal3DeploymentConfig parseCIDR "PROVISIONING_INTERFACE" config =
      some config.ProvisioningInterface := by
    simp [getMetal3DeploymentConfig, provisioningIP, provisioningInterface]
  have hd : getMetal3DeploymentConfig parseCIDR "DHCP_RANGE" config =
      some config.ProvisioningDHCPRange := by
    simp [getMetal3DeploymentConfig, provisioningIP, provisioningInterface, deployKernelUrl,
      deployRamdiskUrl, ironicEndpoint, ironicInspectorEndpoint, httpPort, dhcpRange]
  refine ⟨hi, hd, ?_, ?_⟩
  · intro h
    rw [hi, h]
  · intro h
    rw [hd, h]

/-- C11, at the `disabledSpec` of the test suite, whose interface name and DHCP range
are empty, and at the `unmanagedSpec`: the parameters are the fields themselves. -/
theorem interface_and_range_verbatim_witness :
    getMetal3DeploymentConfig net.ParseCIDR "PROVISIONING_INTERFACE" disabledSpec =
      some "" ∧
    getMetal3DeploymentConfig net.ParseCIDR "DHCP_RANGE" disabledSpec = some "" ∧
    getMetal3DeploymentConfig net.ParseCIDR "PROVISIONING_INTERFACE" unmanagedSpec =
      some "ensp0" :=
  ⟨(interface_and_range_verbatim net.ParseCIDR disabledSpec).2.2.1 (by decide),
   (interface_and_range_verbatim net.ParseCIDR disabledSpec).2.2.2 (by decide),
   (interface_and_range_verbatim net.ParseCIDR unmanagedSpec).1⟩

/-- C12, refuted as stated: a config whose networkMode is the text "Bogus" resolves to
"Bogus", which is none of Managed, Unmanaged and Disabled. -/
theorem mode_outside_enum :
    getProvisioningNetworkMode bogusProv = "Bogus" ∧
    ¬ ((getProvisioningNetworkMode bogusProv = ProvisioningNetworkManaged ∨
        getProvisioningNetworkMode bogusProv = ProvisioningNetworkUnmanaged ∨
        getProvisioningNetworkMode bogusProv = ProvisioningNetworkDisabled) ∧
      getProvisioningNetworkMode bogusProv ≠ "") := by
  decide

/-- C12, amended: for every config, the mode returned by `getProvisioningNetworkMode` is
never the empty string; it is one of Managed, Unmanaged or Disabled whenever
networkMode is empty or one of those three, and it is networkMode itself, unchanged,
whenever networkMode is non-empty. -/
theorem mode_never_empty (prov : Provisioning) :
    getProvisioningNetworkMode prov ≠ "" ∧
    ((prov.Spec.ProvisioningNetwork = "" ∨
        prov.Spec.ProvisioningNetwork = ProvisioningNetworkManaged ∨
        prov.Spec.ProvisioningNetwork = ProvisioningNetworkUnmanaged ∨
        prov.Spec.ProvisioningNetwork = ProvisioningNetworkDisabled) →
      (getProvisioningNetworkMode prov = ProvisioningNetworkManaged ∨
        getProvisioningNetworkMode prov = ProvisioningNetworkUnmanaged ∨
        getProvisioningNetworkMode prov = ProvisioningNetworkDisabled)) ∧
    (prov.Spec.ProvisioningNetwork ≠ "" →
      getProvisioningNetworkMode prov = prov.Spec.ProvisioningNetwork) := by
  refine ⟨?_, ?_, ?_⟩
  · by_cases h : prov.Spec.ProvisioningNetwork = ""
    · cases hflag : prov.Spec.ProvisioningDHCPExternal <;>
        simp [getProvisioningNetworkMode, h, hflag, ProvisioningNetworkManaged,
          ProvisioningNetworkUnmanaged]
    · simp [getProvisioningNetworkMode, h]
  · intro hin
    rcases hin with h | h | h | h
    · cases hflag : prov.Spec.ProvisioningDHCPExternal <;>
        simp [getProvisioningNetworkMode, h, hflag]
    · simp [getProvisioningNetworkMode, h, ProvisioningNetworkManaged]
    · simp [getProvisioningNetworkMode, h, ProvisioningNetworkUnmanaged]
    · simp [getProvisioningNetworkMode, h, ProvisioningNetworkDisabled]
  · intro h
    simp [getProvisioningNetworkMode, h]

/-- C12 as amended, at a config that sets no mode and at one that sets the text
"Bogus": the first resolves to Managed, the second to "Bogus", neither to the empty
string. -/
theorem mode_never_empty_witness :
    getProvisioningNetworkMode (legacyProv false) ≠ "" ∧
    (getProvisioningNetworkMode (legacyProv false) = ProvisioningNetworkManaged ∨
      getProvisioningNetworkMode (legacyProv false) = ProvisioningNetworkUnmanaged ∨
      getProvisioningNetworkMode (legacyProv false) = ProvisioningNetworkDisabled) ∧
    getProvisioningNetworkMode bogusProv ≠ "" ∧
    getProvisioningNetworkMode bogusProv = "Bogus" :=
  ⟨(mode_never_empty (legacyProv false)).1,
   (mode_never_empty (legacyProv false)).2.1 (Or.inl (by decide)),
   (mode_never_empty bogusProv).1,
   (mode_never_empty bogusProv).2.2 (by decide)⟩

/-- C13: two configs that have the same non-empty networkMode and agree on every field
except ProvisioningDHCPExternal get the same validation result, the same success or
the same error. -/
theorem validate_ignores_flag (p q : Provisioning)
    (hset : p.Spec.ProvisioningNetwork ≠ "")
    (hmode : q.Spec.ProvisioningNetwork = p.Spec.ProvisioningNetwork)
    (hiface : q.Spec.ProvisioningInterface = p.Spec.ProvisioningInterface)
    (hip : q.Spec.ProvisioningIP = p.Spec.ProvisioningIP)
    (hcidr : q.Spec.ProvisioningNetworkCIDR = p.Spec.ProvisioningNetworkCIDR)
    (hrange : q.Spec.ProvisioningDHCPRange = p.Spec.ProvisioningDHCPRange)
    (hurl : q.Spec.ProvisioningOSDownloadURL = p.Spec.ProvisioningOSDownloadURL) :
    ValidateBaremetalProvisioningConfig q = ValidateBaremetalProvisioningConfig p := by
  have hq : q.Spec.ProvisioningNetwork ≠ "" := by rw [hmode]; exact hset
  simp only [ValidateBaremetalProvisioningConfig, getProvisioningNetworkMode,
    validateManagedConfig, validateUnmanagedConfig, validateDisabledConfig, hset, hq,
    if_false, hmode, hiface, hip, hcidr, hrange, hurl]

/-- C13, at the `managedSpec` of the test suite with the deprecated flag set and
unset: both are valid. -/
theorem validate_ignores_flag_witness :
    managedProv.Spec.ProvisioningNetwork ≠ "" ∧
    ValidateBaremetalProvisioningConfig
        { managedProv with
          Spec := { managedSpec with ProvisioningDHCPExternal := true } } =
      ValidateBaremetalProvisioningConfig managedProv :=
  ⟨by decide,
   validate_ignores_flag managedProv
     { managedProv with Spec := { managedSpec with ProvisioningDHCPExternal := true } }
     (by decide) rfl rfl rfl rfl rfl rfl⟩

/-- C14: validation checks no CIDR syntax. For every config whose resolved mode is
Managed, Unmanaged or Disabled and whose required fields for that mode are all
non-empty, validation succeeds even when ProvisioningNetworkCIDR does not parse; for
such a config the PROVISIONING_IP parameter is absent and the DEPLOY_KERNEL_URL and
DEPLOY_RAMDISK_URL parameters are present. -/
theorem validate_tolerates_bad_cidr (parseCIDR : String → Option net.IPNet)
    (prov : Provisioning)
    (hreq :
      (getProvisioningNetworkMode prov = ProvisioningNetworkManaged ∧
        prov.Spec.ProvisioningInterface ≠ "" ∧ prov.Spec.ProvisioningIP ≠ "" ∧
        prov.Spec.ProvisioningNetworkCIDR ≠ "" ∧ prov.Spec.ProvisioningDHCPRange ≠ "" ∧
        prov.Spec.ProvisioningOSDownloadURL ≠ "") ∨
      (getProvisioningNetworkMode prov = ProvisioningNetworkUnmanaged ∧
        prov.Spec.ProvisioningInterface ≠ "" ∧ prov.Spec.ProvisioningIP ≠ "" ∧
        prov.Spec.ProvisioningNetworkCIDR ≠ "" ∧
        prov.Spec.ProvisioningOSDownloadURL ≠ "") ∨
      (getProvisioningNetworkMode prov = ProvisioningNetworkDisabled ∧
        prov.Spec.ProvisioningNetworkCIDR ≠ "" ∧
        prov.Spec.ProvisioningOSDownloadURL ≠ ""))
    (hbad : parseCIDR prov.Spec.ProvisioningNetworkCIDR = none) :
    ValidateBaremetalProvisioningConfig prov = .ok () ∧
    getMetal3DeploymentConfig parseCIDR "PROVISIONING_IP" prov.Spec = none ∧
    (∃ url, getMetal3DeploymentConfig parseCIDR "DEPLOY_KERNEL_URL" prov.Spec = some url) ∧
    (∃ url, getMetal3DeploymentConfig parseCIDR "DEPLOY_RAMDISK_URL" prov.Spec = some url) := by
  refine ⟨?_, ?_, ?_, ?_⟩
  · rcases hreq with ⟨hm, h1, h2, h3, h4, h5⟩ | ⟨hm, h1, h2, h3, h5⟩ | ⟨hm, h3, h5⟩
    · simp [ValidateBaremetalProvisioningConfig, hm, validateManagedConfig, rangeToTest,
        h1, h2, h3, h4, h5]
    · simp [ValidateBaremetalProvisioningConfig, hm, validateUnmanagedConfig, rangeToTest,
        h1, h2, h3, h5, ProvisioningNetworkManaged, ProvisioningNetworkUnmanaged]
    · simp [ValidateBaremetalProvisioningConfig, hm, validateDisabledConfig, rangeToTest,
        h3, h5, ProvisioningNetworkManaged, ProvisioningNetworkUnmanaged,
        ProvisioningNetworkDisabled]
  · simp [getMetal3DeploymentConfig, provisioningIP, getProvisioningIPCIDR, hbad]
  · by_cases hip : prov.Spec.ProvisioningIP = "" <;>
      simp [getMetal3DeploymentConfig, provisioningIP, provisioningInterface,
        deployKernelUrl, getDeployKernelUrl, hip]
  · by_cases hip : prov.Spec.ProvisioningIP = "" <;>
      simp [getMetal3DeploymentConfig, provisioningIP, provisioningInterface,
        deployKernelUrl, deployRamdiskUrl, getDeployRamdiskUrl, hip]

/-- C14, at a Managed config with every required field set and the CIDR text
172.30.20.0/240, which the model of Go's parser rejects: the config is valid, the
PROVISIONING_IP parameter absent. -/
theorem validate_tolerates_bad_cidr_witness :
    getProvisioningNetworkMode badCIDRProv = ProvisioningNetworkManaged ∧
    net.ParseCIDR badCIDRProv.Spec.ProvisioningNetworkCIDR = none ∧
    ValidateBaremetalProvisioningConfig badCIDRProv = .ok () ∧
    getMetal3DeploymentConfig net.ParseCIDR "PROVISIONING_IP" badCIDRProv.Spec = none :=
  ⟨by decide, by decide,
   (validate_tolerates_bad_cidr net.ParseCIDR badCIDRProv (Or.inl (by decide))
      (by decide)).1,
   (validate_tolerates_bad_cidr net.ParseCIDR badCIDRProv (Or.inl (by decide))
      (by decide)).2.1⟩

/-- The loop of the validators only ever fails with the text
"<Name> is required but is empty" for an entry of the slice whose value is empty. -/
theorem rangeToTest_error (l : List toTest) (e : String)
    (h : rangeToTest l = .error e) :
    ∃ t, t ∈ l ∧ t.Value = "" ∧ e = t.Name ++ " is required but is empty" := by
  induction l with
  | nil => simp [rangeToTest] at h
  | cons t rest ih =>
    by_cases hv : t.Value = ""
    · simp only [rangeToTest, hv, if_true] at h
      exact ⟨t, List.mem_cons_self _ _, hv, (Except.error.inj h).symm⟩
    · simp only [rangeToTest, hv, if_false] at h
      obtain ⟨u, hu, huv, hue⟩ := ih h
      exact ⟨u, List.mem_cons_of_mem _ hu, huv, hue⟩

/-- C15: every error returned by `ValidateBaremetalProvisioningConfig` has exactly the
text "<FieldName> is required but is empty", with <FieldName> one of
ProvisioningInterface, ProvisioningIP, ProvisioningNetworkCIDR, ProvisioningDHCPRange,
ProvisioningOSDownloadURL, and the named field is empty in the config. -/
theorem validate_error_taxonomy (prov : Provisioning) (e : String)
    (herr : ValidateBaremetalProvisioningConfig prov = .error e) :
    (e = "ProvisioningInterface is required but is empty" ∧
      prov.Spec.ProvisioningInterface = "") ∨
    (e = "ProvisioningIP is required but is empty" ∧ prov.Spec.ProvisioningIP = "") ∨
    (e = "ProvisioningNetworkCIDR is required but is empty" ∧
      prov.Spec.ProvisioningNetworkCIDR = "") ∨
    (e = "ProvisioningDHCPRange is required but is empty" ∧
      prov.Spec.ProvisioningDHCPRange = "") ∨
    (e = "ProvisioningOSDownloadURL is required but is empty" ∧
      prov.Spec.ProvisioningOSDownloadURL = "") := by
  have hlist : ∃ l : List toTest, rangeToTest l = .error e ∧ ∀ t, t ∈ l →
      t = { Name := "ProvisioningInterface", Value := prov.Spec.ProvisioningInterface } ∨
      t = { Name := "ProvisioningIP", Value := prov.Spec.ProvisioningIP } ∨
      t = { Name := "ProvisioningNetworkCIDR",
            Value := prov.Spec.ProvisioningNetworkCIDR } ∨
      t = { Name := "ProvisioningDHCPRange", Value := prov.Spec.ProvisioningDHCPRange } ∨
      t = { Name := "ProvisioningOSDownloadURL",
            Value := prov.Spec.ProvisioningOSDownloadURL } := by
    unfold ValidateBaremetalProvisioningConfig at herr
    simp only at herr
    split_ifs at herr
    · exact ⟨_, herr, by simp⟩
    · exact ⟨_, herr, by simp⟩
    · exact ⟨_, herr, by simp⟩
  obtain ⟨l, hl, hmem⟩ := hlist
  obtain ⟨t, ht, hv, he⟩ := rangeToTest_error l e hl
  rcases hmem t ht with h | h | h | h | h <;> subst h
  · exact Or.inl ⟨he, hv⟩
  · exact Or.inr (Or.inl ⟨he, hv⟩)
  · exact Or.inr (Or.inr (Or.inl ⟨he, hv⟩))
  · exact Or.inr (Or.inr (Or.inr (Or.inl ⟨he, hv⟩)))
  · exact Or.inr (Or.inr (Or.inr (Or.inr ⟨he, hv⟩)))

/-- C15, at a Managed config whose ProvisioningIP and ProvisioningDHCPRange are empty:
validation fails, and its error is one of the five texts, for a field that is
empty. -/
theorem validate_error_taxonomy_witness :
    ValidateBaremetalProvisioningConfig managedNoIPProv =
      .error "ProvisioningIP is required but is empty" ∧
    (("ProvisioningIP is required but is empty" =
          "ProvisioningInterface is required but is empty" ∧
        managedNoIPProv.Spec.ProvisioningInterface = "") ∨
      ("ProvisioningIP is required but is empty" =
          "ProvisioningIP is required but is empty" ∧
        managedNoIPProv.Spec.ProvisioningIP = "") ∨
      ("ProvisioningIP is required but is empty" =
          "ProvisioningNetworkCIDR is required but is empty" ∧
        managedNoIPProv.Spec.ProvisioningNetworkCIDR = "") ∨
      ("ProvisioningIP is required but is empty" =
          "ProvisioningDHCPRange is required but is empty" ∧
        managedNoIPProv.Spec.ProvisioningDHCPRange = "") ∨
      ("ProvisioningIP is required but is empty" =
          "ProvisioningOSDownloadURL is required but is empty" ∧
        managedNoIPProv.Spec.ProvisioningOSDownloadURL = "")) :=
  ⟨by decide,
   validate_error_taxonomy managedNoIPProv "ProvisioningIP is required but is empty"
     (by decide)⟩

/-- C16: for every config, the IRONIC_ENDPOINT parameter is "http://localhost:6385/v1/",
the IRONIC_INSPECTOR_ENDPOINT parameter is "http://localhost:5050/v1/" and the
HTTP_PORT parameter is "6180"; all three are present whatever the config and whatever
the CIDR parser. -/
theorem fixed_endpoints (parseCIDR : String → Option net.IPNet)
    (config : ProvisioningSpec) :
    getMetal3DeploymentConfig parseCIDR "IRONIC_ENDPOINT" config =
      some "http://localhost:6385/v1/" ∧
    getMetal3DeploymentConfig parseCIDR "IRONIC_INSPECTOR_ENDPOINT" config =
      some "http://localhost:5050/v1/" ∧
    getMetal3DeploymentConfig parseCIDR "HTTP_PORT" config = some "6180" := by
  refine ⟨?_, ?_, ?_⟩
  · simp [getMetal3DeploymentConfig, provisioningIP, provisioningInterface, deployKernelUrl,
      deployRamdiskUrl, ironicEndpoint, getIronicEndpoint, baremetalIronicPort,
      baremetalIronicEndpointSubpath]
  · simp [getMetal3DeploymentConfig, provisioningIP, provisioningInterface, deployKernelUrl,
      deployRamdiskUrl, ironicEndpoint, ironicInspectorEndpoint,
      getIronicInspectorEndpoint, baremetalIronicInspectorPort,
      baremetalIronicEndpointSubpath]
  · simp [getMetal3DeploymentConfig, provisioningIP, provisioningInterface, deployKernelUrl,
      deployRamdiskUrl, ironicEndpoint, ironicInspectorEndpoint, httpPort,
      baremetalHttpPort]

/-- C17: for every key other than the nine parameter names and every config,
`getMetal3DeploymentConfig` returns `nil`. -/
theorem unknown_key_absent (parseCIDR : String → Option net.IPNet) (name : String)
    (config : ProvisioningSpec)
    (h1 : name ≠ "PROVISIONING_IP") (h2 : name ≠ "PROVISIONING_INTERFACE")
    (h3 : name ≠ "DEPLOY_KERNEL_URL") (h4 : name ≠ "DEPLOY_RAMDISK_URL")
    (h5 : name ≠ "IRONIC_ENDPOINT") (h6 : name ≠ "IRONIC_INSPECTOR_ENDPOINT")
    (h7 : name ≠ "HTTP_PORT") (h8 : name ≠ "DHCP_RANGE")
    (h9 : name ≠ "RHCOS_IMAGE_URL") :
    getMetal3DeploymentConfig parseCIDR name config = none := by
  simp [getMetal3DeploymentConfig, provisioningIP, provisioningInterface, deployKernelUrl,
    deployRamdiskUrl, ironicEndpoint, ironicInspectorEndpoint, httpPort, dhcpRange,
    machineImageUrl, h1, h2, h3, h4, h5, h6, h7, h8, h9]

/-- C17, at the key "provisioningIP", which differs from PROVISIONING_IP in case and
spelling, and the `managedSpec` of the test suite: the parameter is absent. -/
theorem unknown_key_absent_witness :
    getMetal3DeploymentConfig net.ParseCIDR "provisioningIP" managedSpec = none :=
  unknown_key_absent net.ParseCIDR "provisioningIP" managedSpec
    (by decide) (by decide) (by decide) (by decide) (by decide) (by decide) (by decide)
    (by decide) (by decide)

/-- The resolved mode depends on the spec alone, not on the name of the resource. -/
theorem getProvisioningNetworkMode_spec (name : String) (prov : Provisioning) :
    getProvisioningNetworkMode { Name := name, Spec := prov.Spec } =
      getProvisioningNetworkMode prov := rfl

/-- C18: the container-manifest derivation yields 8 containers for a config whose mode
is Managed, 8 for one whose mode is Unmanaged and 7 for one whose mode is Disabled. -/
theorem containers_per_mode (prov : Provisioning) :
    (getProvisioningNetworkMode prov = ProvisioningNetworkManaged →
      (newMetal3Containers prov.Spec).length = 8) ∧
    (getProvisioningNetworkMode prov = ProvisioningNetworkUnmanaged →
      (newMetal3Containers prov.Spec).length = 8) ∧
    (getProvisioningNetworkMode prov = ProvisioningNetworkDisabled →
      (newMetal3Containers prov.Spec).length = 7) := by
  have hm := getProvisioningNetworkMode_spec "" prov
  refine ⟨?_, ?_, ?_⟩
  · intro h
    simp [newMetal3Containers, hm, h, ProvisioningNetworkManaged,
      ProvisioningNetworkDisabled]
  · intro h
    simp [newMetal3Containers, hm, h, ProvisioningNetworkUnmanaged,
      ProvisioningNetworkDisabled]
  · intro h
    simp [newMetal3Containers, hm, h]

/-- C18, at the three specs of `TestNewMetal3Containers`: 8, 8 and 7 containers. -/
theorem containers_per_mode_witness :
    (newMetal3Containers managedSpec).length = 8 ∧
    (newMetal3Containers unmanagedSpec).length = 8 ∧
    (newMetal3Containers disabledSpec).length = 7 :=
  ⟨(containers_per_mode managedProv).1 (by decide),
   (containers_per_mode unmanagedProv).2.1 (by decide),
   (containers_per_mode disabledProv).2.2 (by decide)⟩

/-- C19: for every config whose networkMode is a non-empty text other than Managed,
Unmanaged and Disabled, validation succeeds whatever the other fields hold. -/
theorem validate_unknown_mode_ok (prov : Provisioning)
    (hset : prov.Spec.ProvisioningNetwork ≠ "")
    (hM : prov.Spec.ProvisioningNetwork ≠ ProvisioningNetworkManaged)
    (hU : prov.Spec.ProvisioningNetwork ≠ ProvisioningNetworkUnmanaged)
    (hD : prov.Spec.ProvisioningNetwork ≠ ProvisioningNetworkDisabled) :
    ValidateBaremetalProvisioningConfig prov = .ok () := by
  have hm : getProvisioningNetworkMode prov = prov.Spec.ProvisioningNetwork := by
    simp [getProvisioningNetworkMode, hset]
  simp [ValidateBaremetalProvisioningConfig, hm, hM, hU, hD]

/-- C19, at a config whose networkMode is "Bogus" and whose other fields are all empty:
it is valid. -/
theorem validate_unknown_mode_ok_witness :
    bogusProv.Spec.ProvisioningNetwork = "Bogus" ∧
    bogusProv.Spec.ProvisioningInterface = "" ∧ bogusProv.Spec.ProvisioningIP = "" ∧
    bogusProv.Spec.ProvisioningNetworkCIDR = "" ∧
    bogusProv.Spec.ProvisioningDHCPRange = "" ∧
    bogusProv.Spec.ProvisioningOSDownloadURL = "" ∧
    ValidateBaremetalProvisioningConfig bogusProv = .ok () :=
  ⟨by decide, by decide, by decide, by decide, by decide, by decide,
   validate_unknown_mode_ok bogusProv (by decide) (by decide) (by decide) (by decide)⟩

/-- C20: the required-field sets are nested. For every config, if
`validateManagedConfig` succeeds then `validateUnmanagedConfig` succeeds, and if
`validateUnmanagedConfig` succeeds then `validateDisabledConfig` succeeds; so a config
that is valid with networkMode Managed stays valid when only networkMode is changed to
Unmanaged, and one valid with Unmanaged stays valid with Disabled. -/
theorem required_fields_nested (prov : Provisioning) :
    (validateManagedConfig prov = .ok () → validateUnmanagedConfig prov = .ok ()) ∧
    (validateUnmanagedConfig prov = .ok () → validateDisabledConfig prov = .ok ()) ∧
    (ValidateBaremetalProvisioningConfig
        { prov with Spec := { prov.Spec with ProvisioningNetwork := "Managed" } } = .ok () →
      ValidateBaremetalProvisioningConfig
        { prov with Spec := { prov.Spec with ProvisioningNetwork := "Unmanaged" } } =
          .ok ()) ∧
    (ValidateBaremetalProvisioningConfig
        { prov with Spec := { prov.Spec with ProvisioningNetwork := "Unmanaged" } } =
          .ok () →
      ValidateBaremetalProvisioningConfig
        { prov with Spec := { prov.Spec with ProvisioningNetwork := "Disabled" } } =
          .ok ()) := by
  refine ⟨?_, ?_, ?_, ?_⟩ <;>
  · simp only [ValidateBaremetalProvisioningConfig, getProvisioningNetworkMode,
      ProvisioningNetworkManaged, ProvisioningNetworkUnmanaged, ProvisioningNetworkDisabled,
      validateManagedConfig, validateUnmanagedConfig, validateDisabledConfig, rangeToTest]
    by_cases h1 : prov.Spec.ProvisioningInterface = "" <;>
    by_cases h2 : prov.Spec.ProvisioningIP = "" <;>
    by_cases h3 : prov.Spec.ProvisioningNetworkCIDR = "" <;>
    by_cases h4 : prov.Spec.ProvisioningDHCPRange = "" <;>
    by_cases h5 : prov.Spec.ProvisioningOSDownloadURL = "" <;>
    simp [h1, h2, h3, h4, h5]

/-- C20, at the `managedSpec` of the test suite: valid as Managed, and so valid with
networkMode changed to Unmanaged and to Disabled. -/
theorem required_fields_nested_witness :
    validateManagedConfig managedProv = .ok () ∧
    validateUnmanagedConfig managedProv = .ok () ∧
    validateDisabledConfig managedProv = .ok () ∧
    ValidateBaremetalProvisioningConfig
      { managedProv with Spec := { managedSpec with ProvisioningNetwork := "Disabled" } } =
        .ok () :=
  ⟨by decide,
   (required_fields_nested managedProv).1 (by decide),
   (required_fields_nested managedProv).2.1 (by decide),
   (required_fields_nested managedProv).2.2.2 (by decide)⟩

/-! ## Theorems: validation and derivation together, and the webhook -/

/-- C21: for every config that passes validation with a resolved mode of Managed,
Unmanaged or Disabled, the RHCOS_IMAGE_URL parameter is present and equals
ProvisioningOSDownloadURL, which is then not empty. -/
theorem valid_config_has_image_url (parseCIDR : String → Option net.IPNet)
    (prov : Provisioning)
    (hmode : getProvisioningNetworkMode prov = ProvisioningNetworkManaged ∨
      getProvisioningNetworkMode prov = ProvisioningNetworkUnmanaged ∨
      getProvisioningNetworkMode prov = ProvisioningNetworkDisabled)
    (hvalid : ValidateBaremetalProvisioningConfig prov = .ok ()) :
    getMetal3DeploymentConfig parseCIDR "RHCOS_IMAGE_URL" prov.Spec =
      some prov.Spec.ProvisioningOSDownloadURL ∧
    prov.Spec.ProvisioningOSDownloadURL ≠ "" := by
  have hurl : prov.Spec.ProvisioningOSDownloadURL ≠ "" := by
    intro h5
    rcases hmode with hm | hm | hm
    · have hV : ValidateBaremetalProvisioningConfig prov = validateManagedConfig prov := by
        simp [ValidateBaremetalProvisioningConfig, hm]
      rw [hV] at hvalid
      simp only [validateManagedConfig, rangeToTest, h5] at hvalid
      by_cases h1 : prov.Spec.ProvisioningInterface = "" <;>
      by_cases h2 : prov.Spec.ProvisioningIP = "" <;>
      by_cases h3 : prov.Spec.ProvisioningNetworkCIDR = "" <;>
      by_cases h4 : prov.Spec.ProvisioningDHCPRange = "" <;>
      simp [h1, h2, h3, h4] at hvalid
    · have hV : ValidateBaremetalProvisioningConfig prov = validateUnmanagedConfig prov := by
        simp [ValidateBaremetalProvisioningConfig, hm, ProvisioningNetworkManaged,
          ProvisioningNetworkUnmanaged]
      rw [hV] at hvalid
      simp only [validateUnmanagedConfig, rangeToTest, h5] at hvalid
      by_cases h1 : prov.Spec.ProvisioningInterface = "" <;>
      by_cases h2 : prov.Spec.ProvisioningIP = "" <;>
      by_cases h3 : prov.Spec.ProvisioningNetworkCIDR = "" <;>
      simp [h1, h2, h3] at hvalid
    · have hV : ValidateBaremetalProvisioningConfig prov = validateDisabledConfig prov := by
        simp [ValidateBaremetalProvisioningConfig, hm, ProvisioningNetworkManaged,
          ProvisioningNetworkUnmanaged, ProvisioningNetworkDisabled]
      rw [hV] at hvalid
      simp only [validateDisabledConfig, rangeToTest, h5] at hvalid
      by_cases h3 : prov.Spec.ProvisioningNetworkCIDR = "" <;>
      simp [h3] at hvalid
  refine ⟨?_, hurl⟩
  simp [getMetal3DeploymentConfig, provisioningIP, provisioningInterface, deployKernelUrl,
    deployRamdiskUrl, ironicEndpoint, ironicInspectorEndpoint, httpPort, dhcpRange,
    machineImageUrl, getProvisioningOSDownloadURL, hurl]

/-- C21, at the Disabled config of the test suite: it is valid, and its RHCOS_IMAGE_URL
parameter is its download URL. -/
theorem valid_config_has_image_url_witness :
    getProvisioningNetworkMode disabledProv = ProvisioningNetworkDisabled ∧
    ValidateBaremetalProvisioningConfig disabledProv = .ok () ∧
    getMetal3DeploymentConfig net.ParseCIDR "RHCOS_IMAGE_URL" disabledProv.Spec =
      some "http://172.22.0.1/images/rhcos-44.81.202001171431.0-openstack.x86_64.qcow2.gz?sha256=e98f83a2b9d4043719664a2be75fe8134dc6ca1fdbde807996622f8cc7ecd234" :=
  ⟨by decide, by decide,
   (valid_config_has_image_url net.ParseCIDR disabledProv (Or.inr (Or.inr (by decide)))
      (by decide)).1⟩

/-- C22: `ValidateCreate` returns the singleton error for every object whose name
differs from the singleton name, whatever the validation of its configuration would
return, and for an object with the singleton name it returns exactly the result of
the configuration validation; `ValidateDelete` succeeds for every object. -/
theorem webhook_create_and_delete (singletonName : String)
    (validateConfig : Provisioning → Except String Unit) (r : Provisioning) :
    (r.Name ≠ singletonName →
      ValidateCreate singletonName validateConfig r =
        .error ("Provisioning object is a singleton and must be named \"" ++
          singletonName ++ "\"")) ∧
    (r.Name ≠ singletonName → validateConfig r = .ok () →
      ∃ e, ValidateCreate singletonName validateConfig r = .error e) ∧
    (r.Name = singletonName →
      ValidateCreate singletonName validateConfig r = validateConfig r) ∧
    ValidateDelete r = .ok () := by
  refine ⟨?_, ?_, ?_, rfl⟩
  · intro h
    simp [ValidateCreate, h]
  · intro h _
    refine ⟨"Provisioning object is a singleton and must be named \"" ++
      singletonName ++ "\"", ?_⟩
    simp [ValidateCreate, h]
  · intro h
    simp [ValidateCreate, h]

/-- C22, with the singleton name "provisioning-configuration" and the validation of
`baremetal_config.go`: the valid `managedSpec` is rejected under another name and
accepted under the singleton name, and deletion succeeds. -/
theorem webhook_create_and_delete_witness :
    ValidateBaremetalProvisioningConfig otherNameProv = .ok () ∧
    ValidateCreate "provisioning-configuration" ValidateBaremetalProvisioningConfig
        otherNameProv =
      .error "Provisioning object is a singleton and must be named \"provisioning-configuration\"" ∧
    ValidateCreate "provisioning-configuration" ValidateBaremetalProvisioningConfig
        managedProv =
      ValidateBaremetalProvisioningConfig managedProv ∧
    ValidateDelete otherNameProv = .ok () :=
  ⟨by decide,
   (webhook_create_and_delete "provisioning-configuration"
      ValidateBaremetalProvisioningConfig otherNameProv).1 (by decide),
   (webhook_create_and_delete "provisioning-configuration"
      ValidateBaremetalProvisioningConfig managedProv).2.2.1 (by decide),
   (webhook_create_and_delete "provisioning-configuration"
      ValidateBaremetalProvisioningConfig otherNameProv).2.2.2⟩

end Baremetal
